import Mathlib

/-!
Verification development for the Alpaca trading CLI/server repository
(`src/alpaca_cli.py`, `src/Alpaca.py`, `src/api.py`).

The embedding models Python values as an inductive `Value` type, Python
exceptions as `PyExc`, and the provider handle (`alpaca_trade_api.rest.REST`)
as a record of call results, so that every facade operation becomes an
executable Lean function.  Machine floats are modelled as rationals: the
claims under study concern parse success/failure, scaling and control flow,
none of which depend on binary rounding.
-/

/-- Python exceptions that can arise in this codebase: the provider error
`APIError`, plus `ValueError` (failing `float(...)` and invalid format
specifiers), `KeyError` (missing dict key) and `TypeError`. -/
inductive PyExc where
  | apiError (msg : String)
  | valueError (msg : String)
  | keyError (key : String)
  | typeError (msg : String)
deriving Repr, DecidableEq

/-- Whether an exception is the provider-level `APIError` — the only class
caught by the `except APIError` handlers in `alpaca_cli.py`. -/
def PyExc.isApiError : PyExc → Bool
  | .apiError _ => true
  | _ => false

/-- `str(e)` for the exceptions above.  `str` of a `KeyError` renders the
missing key quoted, which matters for the printed CLI messages. -/
def PyExc.pyMessage : PyExc → String
  | .apiError m => m
  | .valueError m => m
  | .keyError k => "\x27" ++ k ++ "\x27"
  | .typeError m => m

/-- Python run-time values crossing the facade boundary: `None`, strings,
numbers (floats, modelled as rationals), booleans, dicts with string keys in
insertion order, and lists. -/
inductive Value where
  | none
  | str (s : String)
  | num (q : Rat)
  | bool (b : Bool)
  | obj (fields : List (String × Value))
  | arr (elems : List Value)

/-- The Python membership test `k in v` as used by this codebase: key lookup
on dicts; on lists, equality of `k` against each element (a string never
equals a dict, so only string elements can match).  The remaining cases are
unreachable for the values the facade produces. -/
def pyIn (k : String) : Value → Bool
  | .obj fields => fields.any (fun kv => kv.1 == k)
  | .arr elems => elems.any (fun e => match e with | .str t => t == k | _ => false)
  | _ => false

/-- Python subscript `v[k]`: dict lookup raising `KeyError` when the key is
absent; subscripting a non-dict raises `TypeError` (unreachable here). -/
def Value.getItem (v : Value) (k : String) : Except PyExc Value :=
  match v with
  | .obj fields =>
    match fields.find? (fun kv => kv.1 == k) with
    | some kv => .ok kv.2
    | Option.none => .error (.keyError k)
  | _ => .error (.typeError "object is not subscriptable")

/-- `str(v)` for interpolation into f-strings.  The float case is rendered
via `Rat`; its exact digits are not relied on by any theorem. -/
def pyStr : Value → String
  | .none => "None"
  | .str s => s
  | .bool b => if b then "True" else "False"
  | .num q => toString q
  | .obj _ => "<dict>"
  | .arr _ => "<list>"

/-- Numeric value of a list of decimal digit characters. -/
def digitsToNat (cs : List Char) : Nat :=
  cs.foldl (fun n c => n * 10 + (c.toNat - 48)) 0

/-- Parse an unsigned decimal mantissa (digits, optionally with a dot and
fractional digits; at least one digit overall), returning the digits read as
an integer, the number of fractional digits, and the unconsumed input. -/
def parseMantissa (cs : List Char) : Option ((Nat × Nat) × List Char) :=
  let ip := cs.takeWhile Char.isDigit
  let rest := cs.dropWhile Char.isDigit
  match rest with
  | '.' :: rest2 =>
    let fp := rest2.takeWhile Char.isDigit
    let rest3 := rest2.dropWhile Char.isDigit
    if ip.isEmpty && fp.isEmpty then Option.none
    else some ((digitsToNat ip * 10 ^ fp.length + digitsToNat fp, fp.length), rest3)
  | _ =>
    if ip.isEmpty then Option.none
    else some ((digitsToNat ip, 0), rest)

/-- Parse an optional exponent part (`e`/`E`, optional sign, digits),
returning the exponent value and the unconsumed input. -/
def parseExponent (cs : List Char) : Option (Int × List Char) :=
  match cs with
  | 'e' :: rest => parseExponentDigits rest
  | 'E' :: rest => parseExponentDigits rest
  | other => some (0, other)
where
  parseExponentDigits (cs : List Char) : Option (Int × List Char) :=
    let signed : Bool × List Char :=
      match cs with
      | '-' :: r => (true, r)
      | '+' :: r => (false, r)
      | r => (false, r)
    let ds := signed.2.takeWhile Char.isDigit
    let rest := signed.2.dropWhile Char.isDigit
    if ds.isEmpty then Option.none
    else
      let e : Int := digitsToNat ds
      some (if signed.1 then -e else e, rest)

/-- The value `float(s)` would produce, or `none` when Python would raise
`ValueError`.  Models the decimal forms the provider actually sends (optional
sign, digits, optional fraction, optional exponent, surrounding whitespace);
Python extras such as digit underscores, `inf` and `nan` are out of scope. -/
def pyFloatOpt (s : String) : Option Rat :=
  let cs := ((s.toList.dropWhile Char.isWhitespace).reverse.dropWhile
    Char.isWhitespace).reverse
  let signed : Bool × List Char :=
    match cs with
    | '-' :: r => (true, r)
    | '+' :: r => (false, r)
    | r => (false, r)
  match parseMantissa signed.2 with
  | Option.none => Option.none
  | some ((m, fracDigits), rest) =>
    match parseExponent rest with
    | Option.none => Option.none
    | some (e, rest2) =>
      if rest2.isEmpty then
        let eAdj : Int := e - fracDigits
        let num : Int := if signed.1 then -(m : Int) else (m : Int)
        some (if 0 ≤ eAdj then mkRat (num * ((10 ^ eAdj.toNat : Nat) : Int)) 1
          else mkRat num (10 ^ (-eAdj).toNat))
      else Option.none

/-- `float(s)`: the parsed value, or a raised `ValueError` with the message
CPython uses. -/
def pyFloat (s : String) : Except PyExc Rat :=
  match pyFloatOpt s with
  | some q => .ok q
  | Option.none =>
    .error (.valueError ("could not convert string to float: \x27" ++ s ++ "\x27"))

/-- A process environment: an association list from variable names to
values (`os.environ`). -/
abbrev Env := List (String × String)

/-- `os.environ[k]` as an optional lookup (`none` models the `KeyError`
path; `os.environ.get` uses the same lookup with a default). -/
def envGet (env : Env) (k : String) : Option String :=
  (env.find? (fun kv => kv.1 == k)).map (fun kv => kv.2)

/-- The authenticated handle constructed by `REST(key_id=..., secret_key=...,
base_url=URL(...))`: construction performs no network round trip, so the
session is just its three credential strings. -/
structure RESTClient where
  key_id : String
  secret_key : String
  base_url : String
deriving Repr, DecidableEq

/-- Outcome of `setup_api_client`: either `sys.exit(code)` after printing a
message, or a constructed provider session. -/
inductive SetupResult where
  | exit (code : Nat) (printed : String)
  | client (c : RESTClient)
deriving Repr, DecidableEq

/-- The fixed paper-trading endpoint used when `APCA_API_BASE_URL` is unset
(`alpaca_cli.py` line 22). -/
def defaultBaseUrl : String := "https://paper-api.alpaca.markets"

/-- The message printed before exiting when a required environment variable
is missing; `{e}` interpolates the quoted `KeyError`. -/
def envVarMissingMsg (name : String) : String :=
  "🔴 Critical Error: Environment variable \x27" ++ name ++ "\x27 not set."

/-- `setup_api_client` (`alpaca_cli.py` lines 14–27): reads
`APCA_API_KEY_ID` and `APCA_API_SECRET_KEY` (a missing one raises `KeyError`,
caught and turned into a print plus `sys.exit(1)`), reads `APCA_API_BASE_URL`
with the paper-trading default, and constructs the REST session. -/
def setup_api_client (env : Env) : SetupResult :=
  match envGet env "APCA_API_KEY_ID" with
  | Option.none => .exit 1 (envVarMissingMsg "APCA_API_KEY_ID")
  | some api_key =>
    match envGet env "APCA_API_SECRET_KEY" with
    | Option.none => .exit 1 (envVarMissingMsg "APCA_API_SECRET_KEY")
    | some secret_key =>
      let base_url := (envGet env "APCA_API_BASE_URL").getD defaultBaseUrl
      .client { key_id := api_key, secret_key := secret_key, base_url := base_url }

/-- A provider-native account object: the provider delivers monetary fields
as strings, the pattern-day-trader flag as a boolean. -/
structure ProviderAccount where
  id : String
  status : String
  currency : String
  portfolio_value : String
  buying_power : String
  cash : String
  equity : String
  pattern_day_trader : Bool
deriving Repr

/-- A provider-native position object: all numeric fields arrive as
strings. -/
structure ProviderPosition where
  symbol : String
  qty : String
  market_value : String
  avg_entry_price : String
  current_price : String
  unrealized_pl : String
  unrealized_plpc : String
deriving Repr

/-- A provider-native order object; any field may be `None`. -/
structure ProviderOrder where
  id : Option String
  symbol : Option String
  qty : Option String
  side : Option String
  type : Option String
  status : Option String
deriving Repr

/-- The provider handle seen through the four calls the facade issues.  Each
method's outcome is either a provider object or a raised exception; the
`except APIError` handlers in the facade only catch the `apiError` case. -/
structure ApiClient where
  getAccount : Except PyExc ProviderAccount
  listPositions : Except PyExc (List ProviderPosition)
  listOrders : String → Int → Except PyExc (List ProviderOrder)
  submitOrder : String → Int → String → String → String → Except PyExc ProviderOrder

/-- The ErrorValue shape `{"error": msg}` produced by the facade's
`except APIError` handlers. -/
def errObj (msg : String) : Value :=
  .obj [("error", .str msg)]

/-- The normalized account dict built by `get_account_status_data` lines
33–42, given the four parsed monetary values. -/
def accountObj (a : ProviderAccount) (pv bp ch eq : Rat) : Value :=
  .obj [("id", .str a.id),
    ("status", .str a.status),
    ("currency", .str a.currency),
    ("portfolio_value", .num pv),
    ("buying_power", .num bp),
    ("cash", .num ch),
    ("equity", .num eq),
    ("pattern_day_trader", .bool a.pattern_day_trader)]

/-- `get_account_status_data` (`alpaca_cli.py` lines 29–44): fetch the
account, build the normalized dict (values evaluated in source order, each
monetary string parsed with `float`), catching only `APIError` and turning
it into `{"error": str(e)}`.  Any other exception propagates. -/
def get_account_status_data (api : ApiClient) : Except PyExc Value :=
  let body : Except PyExc Value :=
    match api.getAccount with
    | .error e => .error e
    | .ok account =>
      match pyFloat account.portfolio_value with
      | .error e => .error e
      | .ok pv =>
        match pyFloat account.buying_power with
        | .error e => .error e
        | .ok bp =>
          match pyFloat account.cash with
          | .error e => .error e
          | .ok ch =>
            match pyFloat account.equity with
            | .error e => .error e
            | .ok eq => .ok (accountObj account pv bp ch eq)
  match body with
  | .ok v => .ok v
  | .error e =>
    match e with
    | .apiError m => .ok (errObj m)
    | e => .error e

/-- The normalized position dict built by the comprehension body of
`list_positions_data` lines 51–59, given the six parsed numeric values. -/
def positionObj (p : ProviderPosition) (qty mv aep cp upl uplpc : Rat) : Value :=
  .obj [("symbol", .str p.symbol),
    ("qty", .num qty),
    ("market_value", .num mv),
    ("avg_entry_price", .num aep),
    ("current_price", .num cp),
    ("unrealized_pl", .num upl),
    ("unrealized_plpc", .num uplpc)]

/-- The body of the list comprehension in `list_positions_data`
(`alpaca_cli.py` lines 50–59): one normalized position dict, fields parsed
in source order. -/
def normalize_position (pos : ProviderPosition) : Except PyExc Value :=
  match pyFloat pos.qty with
  | .error e => .error e
  | .ok qty =>
    match pyFloat pos.market_value with
    | .error e => .error e
    | .ok mv =>
      match pyFloat pos.avg_entry_price with
      | .error e => .error e
      | .ok aep =>
        match pyFloat pos.current_price with
        | .error e => .error e
        | .ok cp =>
          match pyFloat pos.unrealized_pl with
          | .error e => .error e
          | .ok upl =>
            match pyFloat pos.unrealized_plpc with
            | .error e => .error e
            | .ok uplpc => .ok (positionObj pos qty mv aep cp upl uplpc)

/-- The list comprehension of lines 50–61: normalize each position in
provider order; the first raised exception aborts and propagates. -/
def normalizePositions : List ProviderPosition → Except PyExc (List Value)
  | [] => .ok []
  | p :: rest =>
    match normalize_position p with
    | .error e => .error e
    | .ok v =>
      match normalizePositions rest with
      | .error e => .error e
      | .ok vs => .ok (v :: vs)

/-- `list_positions_data` (`alpaca_cli.py` lines 46–63): fetch positions,
normalize each in order, catching only `APIError` as `{"error": str(e)}`. -/
def list_positions_data (api : ApiClient) : Except PyExc Value :=
  let body : Except PyExc Value :=
    match api.listPositions with
    | .error e => .error e
    | .ok positions =>
      match normalizePositions positions with
      | .error e => .error e
      | .ok objs => .ok (.arr objs)
  match body with
  | .ok v => .ok v
  | .error e =>
    match e with
    | .apiError m => .ok (errObj m)
    | e => .error e

/-- Alignment characters of the format-spec mini-language. -/
def isAlignChar (c : Char) : Bool :=
  c == '<' || c == '>' || c == '=' || c == '^'

/-- Consume the optional `[[fill]align]` prefix of a format spec. -/
def dropFillAlign : List Char → List Char
  | a :: b :: rest =>
    if isAlignChar b then rest
    else if isAlignChar a then b :: rest
    else a :: b :: rest
  | [c] => if isAlignChar c then [] else [c]
  | [] => []

/-- Consume one character when it satisfies `p`. -/
def dropIfChar (p : Char → Bool) : List Char → List Char
  | c :: rest => if p c then rest else c :: rest
  | [] => []

/-- Whether the remainder of a spec is empty or a single float presentation
type character. -/
def floatTypeOrEmpty : List Char → Bool
  | [] => true
  | [c] => c == 'e' || c == 'E' || c == 'f' || c == 'F' ||
           c == 'g' || c == 'G' || c == 'n' || c == '%'
  | _ => false

/-- CPython validity of a format spec applied to a float:
`[[fill]align][sign][z][#][0][width][grouping][.precision][type]`.
In particular the spec `, .2f` appearing in `get_account_status` (lines
77–78) is invalid — nothing may stand between the grouping comma and the
precision dot — while `,.2f` is valid. -/
def validFloatFormatSpec (spec : String) : Bool :=
  let cs := dropFillAlign spec.toList
  let cs := dropIfChar (fun c => c == '+' || c == '-' || c == ' ') cs
  let cs := dropIfChar (fun c => c == 'z') cs
  let cs := dropIfChar (fun c => c == '#') cs
  let cs := dropIfChar (fun c => c == '0') cs
  let cs := cs.dropWhile Char.isDigit
  let cs := dropIfChar (fun c => c == ',' || c == '_') cs
  match cs with
  | '.' :: rest =>
    let ds := rest.takeWhile Char.isDigit
    let rest2 := rest.dropWhile Char.isDigit
    !ds.isEmpty && floatTypeOrEmpty rest2
  | other => floatTypeOrEmpty other

/-- Fixed-point digits of `q` with `prec` fractional digits (round half away
from zero).  Only reached for valid specs; exact digits of the rendering are
not relied on by any theorem (binary-float rounding is abstracted away). -/
def ratFixed (prec : Nat) (q : Rat) : String :=
  let scaled : Int := (q.num.natAbs * 10 ^ prec + q.den / 2) / q.den
  let digits := toString scaled
  let sign := if q.num < 0 then "-" else ""
  if prec == 0 then sign ++ digits
  else
    let padded :=
      if digits.length ≤ prec then
        String.mk (List.replicate (prec + 1 - digits.length) '0') ++ digits
      else digits
    sign ++ padded.take (padded.length - prec) ++ "." ++
      padded.drop (padded.length - prec)

/-- `format(q, spec)` for a float: a `ValueError` on an invalid spec (the
CPython 3.11 message), otherwise a simplified fixed-point rendering using
the spec's precision (default 6). -/
def pyFormatFloat (spec : String) (q : Rat) : Except PyExc String :=
  if validFloatFormatSpec spec then
    let precDigits := (spec.toList.dropWhile (fun c => c != '.')).drop 1
    let prec := if precDigits.isEmpty then 6 else digitsToNat (precDigits.takeWhile Char.isDigit)
    .ok (ratFixed prec q)
  else
    .error (.valueError ("Invalid format specifier \x27" ++ spec ++
      "\x27 for object of type \x27float\x27"))

/-- `format(v, spec)` as used in the CLI f-strings, where `v` is a dict
entry known to be a float. -/
def pyFormatValue (spec : String) (v : Value) : Except PyExc String :=
  match v with
  | .num q => pyFormatFloat spec q
  | _ => .error (.typeError "unsupported format string passed to object")

/-- Python `x or "N/A"`: falls through to the placeholder when the field is
`None` or the empty string (both falsy). -/
def orNA (s : Option String) : String :=
  match s with
  | Option.none => "N/A"
  | some t => if t == "" then "N/A" else t

/-- `str(x)` for an optional provider field (`None` renders as `"None"`). -/
def pyStrOpt (s : Option String) : String :=
  match s with
  | Option.none => "None"
  | some t => t

/-- Left-justified padding to `w` characters (the `:<w` f-string spec). -/
def padRight (w : Nat) (s : String) : String :=
  s ++ String.mk (List.replicate (w - s.length) ' ')

/-- Result of a CLI command function: the lines printed (in order), and
either the returned value (always `None`) or a propagated exception.
Lines printed before a propagated exception are kept. -/
abbrev CliResult := List String × Except PyExc Value

/-- `get_account_status` (`alpaca_cli.py` lines 67–80): fetch the data, and
either print the API-error line, or print the account report.  In the
success branch the f-string of line 77 formats `portfolio_value` with the
spec `, .2f`, so its evaluation raises before lines 78–80 (including the
`data['daytrade_count']` subscript of line 79) are reached. -/
def get_account_status (api : ApiClient) : CliResult :=
  match get_account_status_data api with
  | .error e => ([], .error e)
  | .ok data =>
    if pyIn "error" data then
      match data.getItem "error" with
      | .ok v => (["🔴 API Error fetching account: " ++ pyStr v], .ok Value.none)
      | .error e => ([], .error e)
    else
      let l0 := "\n---\n📋 Fetching Account Status...\n---"
      match data.getItem "status" with
      | .error e => ([l0], .error e)
      | .ok statusVal =>
        let status := match statusVal with
          | .str s => if s == "ACTIVE" then "ACTIVE" else "RESTRICTED"
          | _ => "RESTRICTED"
        match data.getItem "id" with
        | .error e => ([l0], .error e)
        | .ok idVal =>
          let l1 := "Account Status:       " ++ status ++ " (" ++ pyStr idVal ++ ")"
          match data.getItem "currency" with
          | .error e => ([l0, l1], .error e)
          | .ok curVal =>
            let l2 := "Currency:             " ++ pyStr curVal
            match data.getItem "portfolio_value" with
            | .error e => ([l0, l1, l2], .error e)
            | .ok pvVal =>
              match pyFormatValue ", .2f" pvVal with
              | .error e => ([l0, l1, l2], .error e)
              | .ok pvStr =>
                let l3 := "Portfolio Value:      $" ++ pvStr
                match data.getItem "buying_power" with
                | .error e => ([l0, l1, l2, l3], .error e)
                | .ok bpVal =>
                  match pyFormatValue ", .2f" bpVal with
                  | .error e => ([l0, l1, l2, l3], .error e)
                  | .ok bpStr =>
                    let l4 := "Buying Power:         $" ++ bpStr
                    match data.getItem "daytrade_count" with
                    | .error e => ([l0, l1, l2, l3, l4], .error e)
                    | .ok dcVal =>
                      let l5 := "Daytrade Count:       " ++ pyStr dcVal
                      match data.getItem "pattern_day_trader" with
                      | .error e => ([l0, l1, l2, l3, l4, l5], .error e)
                      | .ok pdVal =>
                        let pd := match pdVal with
                          | .bool b => if b then "Yes" else "No"
                          | _ => "Yes"
                        ([l0, l1, l2, l3, l4, l5,
                          "Pattern Day Trader:   " ++ pd], .ok Value.none)

/-- The displayed P/L percentage of one normalized position, as computed
inside the f-string of `list_positions` line 95: `pos['unrealized_plpc'] * 100`
(the scaling by 100 happens here, at display time, and nowhere else). -/
def pl_pct_value (pos : Value) : Except PyExc Rat :=
  match pos.getItem "unrealized_plpc" with
  | .ok (.num q) => .ok (q * mkRat 100 1)
  | .ok _ => .error (.typeError "unsupported operand type for *")
  | .error e => .error e

/-- `place_order` (`alpaca_cli.py` lines 98–117): print the banner, submit,
and print either the confirmation block or the API-error line.  The function
returns `None` in both handled branches; only a non-`APIError` exception
escapes. -/
def place_order (api : ApiClient) (symbol : String) (qty : Int) (side : String)
    (type : String) (time_in_force : String) : CliResult :=
  let banner := "\n---\n🛒 Placing Order for " ++ toString qty ++ " " ++
    symbol ++ "...\n---"
  match api.submitOrder symbol qty side type time_in_force with
  | .ok order =>
    ([banner, "✅ Order submitted successfully!",
      "    ID:           " ++ pyStrOpt order.id,
      "    Symbol:       " ++ pyStrOpt order.symbol,
      "    Qty:          " ++ pyStrOpt order.qty,
      "    Side:         " ++ pyStrOpt order.side,
      "    Type:         " ++ pyStrOpt order.type,
      "    Status:       " ++ pyStrOpt order.status], .ok Value.none)
  | .error (.apiError m) =>
    ([banner, "🔴 API Error placing order: " ++ m], .ok Value.none)
  | .error e => ([banner], .error e)

/-- The column-header line of the `orders list` table (line 128). -/
def ordersTableHeader : String :=
  padRight 30 "ID" ++ " " ++ padRight 10 "Symbol" ++ " " ++ padRight 8 "Qty" ++
    " " ++ padRight 8 "Side" ++ " " ++ padRight 10 "Type" ++ " " ++
    padRight 12 "Status"

/-- One row of the `orders list` table (line 131): each possibly-missing
field falls back to `N/A`. -/
def orderRow (o : ProviderOrder) : String :=
  padRight 30 (orNA o.id) ++ " " ++ padRight 10 (orNA o.symbol) ++ " " ++
    padRight 8 (orNA o.qty) ++ " " ++ padRight 8 (orNA o.side) ++ " " ++
    padRight 10 (orNA o.type) ++ " " ++ padRight 12 (orNA o.status)

/-- What `list_orders` does with the provider's reply once the call
`api.list_orders(status=..., limit=...)` has returned or raised: empty-set
message, table, or the `except APIError` print. -/
def list_orders_given (status : String) (reply : Except PyExc (List ProviderOrder)) :
    CliResult :=
  let banner := "\n---\n📄 Fetching Orders (Status: " ++ status ++ ")...\n---"
  match reply with
  | .ok orders =>
    if orders.isEmpty then
      ([banner, "No orders found with status \x27" ++ status ++ "\x27."],
        .ok Value.none)
    else
      ([banner, ordersTableHeader, String.mk (List.replicate 80 '-')] ++
        orders.map orderRow, .ok Value.none)
  | .error (.apiError m) =>
    ([banner, "🔴 API Error listing orders: " ++ m], .ok Value.none)
  | .error e => ([banner], .error e)

/-- `list_orders` (`alpaca_cli.py` lines 119–134): print the banner, call
the provider with the given status and limit — the limit is forwarded
exactly as received, with no validation of any kind — and render the
reply. -/
def list_orders (api : ApiClient) (status : String) (limit : Int) : CliResult :=
  list_orders_given status (api.listOrders status limit)

/-- An HTTP response from a Flask handler: JSON body and status code. -/
abbrev HttpResponse := Value × Nat

/-- `GET /api/account_info` in `src/Alpaca.py` (lines 20–28): return the
facade's dict with status 500 when it carries the `"error"` tag, otherwise
200.  An exception raised by the facade is not handled here. -/
def alpaca_get_account_info (api : ApiClient) : Except PyExc HttpResponse :=
  match get_account_status_data api with
  | .error e => .error e
  | .ok data =>
    if pyIn "error" data then .ok (data, 500) else .ok (data, 200)

/-- `GET /api/positions` in `src/Alpaca.py` (lines 30–38): same shape over
`list_positions_data` (the success value is a list, on which the `"error" in
data` test compares the string against each element). -/
def alpaca_get_positions (api : ApiClient) : Except PyExc HttpResponse :=
  match list_positions_data api with
  | .error e => .error e
  | .ok data =>
    if pyIn "error" data then .ok (data, 500) else .ok (data, 200)

/-- `GET /api/account_info` in `src/api.py` (lines 22–28): the whole body is
wrapped in `try/except Exception`, so a raised exception becomes a 500 — but
a returned value, the `{"error": ...}` dict included, is answered with 200
unconditionally. -/
def apiPy_get_account_info (api : ApiClient) : HttpResponse :=
  match get_account_status_data api with
  | .ok data => (data, 200)
  | .error e => (.obj [("error", .str e.pyMessage)], 500)

/-- `GET /api/positions` in `src/api.py` (lines 30–36): same shape over
`list_positions_data`. -/
def apiPy_get_positions (api : ApiClient) : HttpResponse :=
  match list_positions_data api with
  | .ok data => (data, 200)
  | .error e => (.obj [("error", .str e.pyMessage)], 500)

/-- The names bound at the top level of module `alpaca_cli` after it
executes: its imports and its eight function definitions. -/
def alpaca_cli_module_names : List String :=
  ["os", "sys", "argparse", "json", "REST", "APIError", "URL", "load_dotenv",
   "setup_api_client", "get_account_status_data", "list_positions_data",
   "get_account_status", "list_positions", "place_order", "list_orders",
   "main"]

/-- The names `src/api.py` line 7 requests from `alpaca_cli`. -/
def api_py_imported_names : List String :=
  ["setup_api_client_from_env", "get_account_status_data",
   "list_positions_data"]

/-- The names `src/Alpaca.py` line 4 requests from `alpaca_cli`. -/
def alpaca_py_imported_names : List String :=
  ["setup_api_client", "get_account_status_data", "list_positions_data"]

/-- Python `from alpaca_cli import a, b, c` semantics: the import succeeds
iff every requested name is bound in the imported module, otherwise module
load stops with `ImportError` for the first missing name. -/
def importFromAlpacaCli (requested : List String) : Except String Unit :=
  match requested.find? (fun n => !(alpaca_cli_module_names.contains n)) with
  | some n =>
    .error ("cannot import name \x27" ++ n ++ "\x27 from \x27alpaca_cli\x27")
  | Option.none => .ok ()

/-- Whether the `src/api.py` Flask server can load at all: its module body
starts with the `from alpaca_cli import ...` statement, so a failing import
means no route is ever registered or served. -/
def api_py_loads : Bool :=
  match importFromAlpacaCli api_py_imported_names with
  | .ok _ => true
  | .error _ => false

/-- A provider account whose numeric fields all parse. -/
def goodAccount : ProviderAccount :=
  { id := "acct-123", status := "ACTIVE", currency := "USD",
    portfolio_value := "100000.50", buying_power := "25000.75",
    cash := "10000.00", equity := "100000.50", pattern_day_trader := false }

/-- A provider position whose numeric fields all parse; `unrealized_plpc`
is the provider's raw fraction `0.0532`. -/
def goodPosition : ProviderPosition :=
  { symbol := "AAPL", qty := "10", market_value := "1750.00",
    avg_entry_price := "150.00", current_price := "175.00",
    unrealized_pl := "250.00", unrealized_plpc := "0.0532" }

/-- A fully populated provider order confirmation. -/
def okOrder : ProviderOrder :=
  { id := some "ord-1", symbol := some "AAPL", qty := some "10",
    side := some "buy", type := some "market", status := some "accepted" }

/-- A provider on which every call succeeds. -/
def goodApi : ApiClient :=
  { getAccount := .ok goodAccount,
    listPositions := .ok [goodPosition],
    listOrders := fun _ _ => .ok [okOrder],
    submitOrder := fun _ _ _ _ _ => .ok okOrder }

/-- A provider on which every call raises `APIError` with message `m`. -/
def apiFailingWith (m : String) : ApiClient :=
  { getAccount := .error (.apiError m),
    listPositions := .error (.apiError m),
    listOrders := fun _ _ => .error (.apiError m),
    submitOrder := fun _ _ _ _ _ => .error (.apiError m) }

/-- A provider whose transport raises a non-`APIError` exception on every
call. -/
def apiRaisingValueError : ApiClient :=
  { getAccount := .error (.valueError "transport exploded"),
    listPositions := .error (.valueError "transport exploded"),
    listOrders := fun _ _ => .error (.valueError "transport exploded"),
    submitOrder := fun _ _ _ _ _ => .error (.valueError "transport exploded") }

/-- A provider account with a non-numeric `portfolio_value`. -/
def badParseAccount : ProviderAccount :=
  { goodAccount with portfolio_value := "abc" }

/-- `goodApi`, but account retrieval yields the unparsable account. -/
def badParseApi : ApiClient :=
  { goodApi with getAccount := .ok badParseAccount }

/-- `goodApi`, but the position list contains a position with a non-numeric
`qty` after a well-formed one. -/
def badPositionsApi : ApiClient :=
  { goodApi with
    listPositions := .ok [goodPosition, { goodPosition with qty := "oops" }] }

/-- A provider whose order-listing call reports back, through the `APIError`
message, the limit value the facade actually sent it. -/
def limitProbeApi : ApiClient :=
  { goodApi with
    listOrders := fun _ limit =>
      .error (.apiError ("provider saw limit " ++ toString limit)) }

/-- The normalized value `get_account_status_data` produces for
`goodAccount` (100000.50 = 200001/2, 25000.75 = 100003/4). -/
def goodAccountValue : Value :=
  accountObj goodAccount (mkRat 200001 2) (mkRat 100003 4) 10000 (mkRat 200001 2)

/-- The normalized value `normalize_position` produces for `goodPosition`
(0.0532 = 133/2500). -/
def goodPositionValue : Value :=
  positionObj goodPosition 10 1750 150 175 250 (mkRat 133 2500)

/-! ## Supporting lemmas -/

/-- `float(...)` never raises anything but `ValueError`. -/
theorem pyFloat_error_kind (s : String) (e : PyExc)
    (h : pyFloat s = .error e) : ∃ m, e = PyExc.valueError m := by
  unfold pyFloat at h
  split at h
  · cases h
  · exact ⟨_, (Except.error.inj h).symm⟩

/-- An unparsable numeric string makes `float(...)` raise `ValueError`. -/
theorem pyFloat_of_unparsable (s : String) (h : pyFloatOpt s = Option.none) :
    pyFloat s = .error (PyExc.valueError
      ("could not convert string to float: \x27" ++ s ++ "\x27")) := by
  unfold pyFloat
  rw [h]

/-- Normalizing one position either succeeds or raises `ValueError`. -/
theorem normalize_position_error (pos : ProviderPosition) (e : PyExc)
    (h : normalize_position pos = .error e) : ∃ m, e = PyExc.valueError m := by
  unfold normalize_position at h
  repeat' split at h
  all_goals try cases h
  all_goals exact pyFloat_error_kind _ _ (by assumption)

/-- Success shape of `normalize_position`: all six numeric fields parsed and
the result is exactly the seven-field dict. -/
theorem normalize_position_ok (pos : ProviderPosition) (v : Value)
    (h : normalize_position pos = .ok v) :
    ∃ qty mv aep cp upl uplpc,
      pyFloat pos.qty = .ok qty ∧ pyFloat pos.market_value = .ok mv ∧
      pyFloat pos.avg_entry_price = .ok aep ∧ pyFloat pos.current_price = .ok cp ∧
      pyFloat pos.unrealized_pl = .ok upl ∧ pyFloat pos.unrealized_plpc = .ok uplpc ∧
      v = positionObj pos qty mv aep cp upl uplpc := by
  unfold normalize_position at h
  repeat' split at h
  all_goals cases h
  exact ⟨_, _, _, _, _, _, by assumption, by assumption, by assumption,
    by assumption, by assumption, by assumption, rfl⟩

/-- Success shape of `get_account_status_data`: either the `APIError` was
caught and the result is the `{"error": ...}` dict, or every monetary field
parsed and the result is the eight-field account dict. -/
theorem get_account_status_data_ok (api : ApiClient) (v : Value)
    (h : get_account_status_data api = .ok v) :
    (∃ m, api.getAccount = .error (.apiError m) ∧ v = errObj m) ∨
    (∃ a pv bp ch eq, api.getAccount = .ok a ∧
      pyFloat a.portfolio_value = .ok pv ∧ pyFloat a.buying_power = .ok bp ∧
      pyFloat a.cash = .ok ch ∧ pyFloat a.equity = .ok eq ∧
      v = accountObj a pv bp ch eq) := by
  unfold get_account_status_data at h
  repeat' split at h
  all_goals try (rename_i e2 hq2; cases e2)
  all_goals try cases h
  all_goals try (exfalso
                 obtain ⟨m, hm⟩ := pyFloat_error_kind _ _ (by assumption)
                 cases hm)
  all_goals try (right; exact ⟨_, _, _, _, _, by assumption, by assumption,
    by assumption, by assumption, by assumption, rfl⟩)
  all_goals (left; exact ⟨_, by assumption, rfl⟩)

/-- The comprehension as a whole can only raise `ValueError`. -/
theorem normalizePositions_error_kind (ps : List ProviderPosition) (e : PyExc)
    (h : normalizePositions ps = .error e) : ∃ m, e = PyExc.valueError m := by
  induction ps with
  | nil => cases h
  | cons p rest ih =>
    unfold normalizePositions at h
    split at h
    · cases h; exact normalize_position_error _ _ (by assumption)
    · split at h
      · cases h; exact ih (by assumption)
      · cases h

/-- Success shape of `list_positions_data`: either the `APIError` was caught,
or the provider list arrived and every position normalized. -/
theorem list_positions_data_ok (api : ApiClient) (v : Value)
    (h : list_positions_data api = .ok v) :
    (∃ m, api.listPositions = .error (.apiError m) ∧ v = errObj m) ∨
    (∃ ps objs, api.listPositions = .ok ps ∧ normalizePositions ps = .ok objs ∧
      v = .arr objs) := by
  unfold list_positions_data at h
  repeat' split at h
  all_goals try (rename_i e2 hq2; cases e2)
  all_goals try cases h
  all_goals try (exfalso
                 obtain ⟨m, hm⟩ := normalizePositions_error_kind _ _ (by assumption)
                 cases hm)
  all_goals try (right; exact ⟨_, _, by assumption, by assumption, rfl⟩)
  all_goals (left; exact ⟨_, by assumption, rfl⟩)

/-- Every element of a successfully normalized list comes from normalizing
some provider position of the input list. -/
theorem normalizePositions_mem (ps : List ProviderPosition) (objs : List Value)
    (h : normalizePositions ps = .ok objs) :
    ∀ v ∈ objs, ∃ pos ∈ ps, normalize_position pos = .ok v := by
  induction ps generalizing objs with
  | nil => cases h; intro v hv; cases hv
  | cons p rest ih =>
    unfold normalizePositions at h
    split at h
    · cases h
    · split at h
      · cases h
      · cases h
        intro v hv
        rcases List.mem_cons.mp hv with rfl | hv2
        · exact ⟨p, List.mem_cons_self _ _, by assumption⟩
        · obtain ⟨pos, hmem, hok⟩ := ih _ (by assumption) v hv2
          exact ⟨pos, List.mem_cons_of_mem _ hmem, hok⟩

/-- If any position of the list fails to normalize, the whole comprehension
raises a `ValueError` (the earliest failing field wins). -/
theorem normalizePositions_error_of_bad (ps : List ProviderPosition)
    (pos : ProviderPosition) (e : PyExc) (hmem : pos ∈ ps)
    (hbad : normalize_position pos = .error e) :
    ∃ m, normalizePositions ps = .error (PyExc.valueError m) := by
  induction ps with
  | nil => cases hmem
  | cons p rest ih =>
    unfold normalizePositions
    cases hp : normalize_position p with
    | error e2 =>
      obtain ⟨m, hm⟩ := normalize_position_error _ _ hp
      subst hm
      exact ⟨m, rfl⟩
    | ok v =>
      rcases List.mem_cons.mp hmem with rfl | hmem2
      · rw [hp] at hbad; cases hbad
      · obtain ⟨m, hrec⟩ := ih hmem2
        rw [hrec]
        exact ⟨m, rfl⟩

/-- The full account dict never carries the `"error"` key. -/
theorem pyIn_error_accountObj (a : ProviderAccount) (pv bp ch eq : Rat) :
    pyIn "error" (accountObj a pv bp ch eq) = false := rfl

/-- The full account dict never carries a `"daytrade_count"` key either. -/
theorem pyIn_daytrade_accountObj (a : ProviderAccount) (pv bp ch eq : Rat) :
    pyIn "daytrade_count" (accountObj a pv bp ch eq) = false := rfl

/-- A list whose elements are all dicts never passes the `"error" in data`
membership test (a string compares unequal to every dict). -/
theorem pyIn_arr_objs (objs : List Value) (k : String)
    (h : ∀ v ∈ objs, ∃ fs, v = Value.obj fs) : pyIn k (.arr objs) = false := by
  unfold pyIn
  rw [List.any_eq_false]
  intro v hv
  obtain ⟨fs, rfl⟩ := h v hv
  simp

/-- A successful parse means the underlying optional parse succeeded. -/
theorem pyFloat_ok_some (s : String) (q : Rat) (h : pyFloat s = .ok q) :
    pyFloatOpt s = some q := by
  unfold pyFloat at h
  split at h
  · rename_i q2 hq2
    cases h
    exact hq2
  · cases h

/-- C10: the import in src/api.py line 7 requests a name alpaca_cli never
binds. -/
theorem C10_api_py_import_always_fails :
    importFromAlpacaCli api_py_imported_names =
      .error "cannot import name \x27setup_api_client_from_env\x27 from \x27alpaca_cli\x27" ∧
    alpaca_cli_module_names.contains "setup_api_client_from_env" = false ∧
    alpaca_cli_module_names.contains "setup_api_client" = true ∧
    api_py_loads = false ∧
    importFromAlpacaCli alpaca_py_imported_names = .ok () :=
  ⟨rfl, by decide, by decide, rfl, rfl⟩

/-- C5: missing credentials are fatal. -/
theorem C5_missing_credentials_fatal (env : Env) :
    (envGet env "APCA_API_KEY_ID" = Option.none →
      setup_api_client env = .exit 1 (envVarMissingMsg "APCA_API_KEY_ID")) ∧
    (∀ k, envGet env "APCA_API_KEY_ID" = some k →
      envGet env "APCA_API_SECRET_KEY" = Option.none →
      setup_api_client env = .exit 1 (envVarMissingMsg "APCA_API_SECRET_KEY")) ∧
    (∀ k s, envGet env "APCA_API_KEY_ID" = some k →
      envGet env "APCA_API_SECRET_KEY" = some s →
      setup_api_client env = .client ⟨k, s, (envGet env "APCA_API_BASE_URL").getD defaultBaseUrl⟩) := by
  refine ⟨?_, ?_, ?_⟩
  · intro h
    unfold setup_api_client
    rw [h]
  · intro k hk hs
    unfold setup_api_client
    rw [hk, hs]
  · intro k s hk hs
    unfold setup_api_client
    rw [hk, hs]

theorem C5_missing_credentials_fatal_witness :
    setup_api_client [("APCA_API_SECRET_KEY", "s")] =
      .exit 1 (envVarMissingMsg "APCA_API_KEY_ID") ∧
    setup_api_client [("APCA_API_KEY_ID", "k")] =
      .exit 1 (envVarMissingMsg "APCA_API_SECRET_KEY") ∧
    setup_api_client [("APCA_API_KEY_ID", "k"), ("APCA_API_SECRET_KEY", "s")] =
      .client ⟨"k", "s", defaultBaseUrl⟩ :=
  ⟨(C5_missing_credentials_fatal _).1 rfl,
   (C5_missing_credentials_fatal _).2.1 "k" rfl rfl,
   (C5_missing_credentials_fatal _).2.2 "k" "s" rfl rfl⟩

/-- C6 counterexample: the names of the spec are not read. -/
theorem C6_spec_env_names_rejected_cex :
    setup_api_client [("API_KEY_ID", "k"), ("API_SECRET_KEY", "s"),
      ("API_BASE_URL", "https://example.test")] =
      .exit 1 (envVarMissingMsg "APCA_API_KEY_ID") ∧
    setup_api_client [("APCA_API_KEY_ID", "k"), ("APCA_API_SECRET_KEY", "s")] =
      .client ⟨"k", "s", defaultBaseUrl⟩ :=
  ⟨rfl, rfl⟩

/-- C6 amended: the names carry the APCA prefix. -/
theorem C6_resolver_reads_apca_names (env1 env2 : Env)
    (h1 : envGet env1 "APCA_API_KEY_ID" = envGet env2 "APCA_API_KEY_ID")
    (h2 : envGet env1 "APCA_API_SECRET_KEY" = envGet env2 "APCA_API_SECRET_KEY")
    (h3 : envGet env1 "APCA_API_BASE_URL" = envGet env2 "APCA_API_BASE_URL") :
    setup_api_client env1 = setup_api_client env2 ∧
    (envGet env1 "APCA_API_BASE_URL" = Option.none →
      ∀ k s, envGet env1 "APCA_API_KEY_ID" = some k →
        envGet env1 "APCA_API_SECRET_KEY" = some s →
        setup_api_client env1 = .client ⟨k, s, "https://paper-api.alpaca.markets"⟩) := by
  constructor
  · unfold setup_api_client
    rw [h1, h2, h3]
  · intro hb k s hk hs
    unfold setup_api_client
    rw [hk, hs, hb]
    rfl

theorem C6_resolver_reads_apca_names_witness :
    setup_api_client [("APCA_API_KEY_ID", "k"), ("APCA_API_SECRET_KEY", "s"),
        ("HOME", "x")] =
      setup_api_client [("APCA_API_KEY_ID", "k"), ("APCA_API_SECRET_KEY", "s")] ∧
    setup_api_client [("APCA_API_KEY_ID", "k"), ("APCA_API_SECRET_KEY", "s"),
        ("HOME", "x")] =
      .client ⟨"k", "s", "https://paper-api.alpaca.markets"⟩ :=
  ⟨(C6_resolver_reads_apca_names _ _ rfl rfl rfl).1,
   (C6_resolver_reads_apca_names _
     [("APCA_API_KEY_ID", "k"), ("APCA_API_SECRET_KEY", "s")]
     rfl rfl rfl).2 rfl "k" "s" rfl rfl⟩

/-- C1 counterexample: a placement failure is caught and printed, but the
function returns None, not the ErrorValue dict. -/
theorem C1_place_order_prints_not_returns_cex :
    place_order (apiFailingWith "insufficient buying power")
        "AAPL" 10 "buy" "market" "gtc" =
      (["\n---\n🛒 Placing Order for 10 AAPL...\n---",
        "🔴 API Error placing order: insufficient buying power"],
       .ok Value.none) ∧
    Value.none ≠ errObj "insufficient buying power" :=
  ⟨rfl, fun h => Value.noConfusion h⟩

/-- C1 amended: APIError is caught in all four operations, with the two data
operations returning the error dict and the two CLI order operations
printing the message and returning None. -/
theorem C1_api_errors_caught (api : ApiClient) (m : String) :
    (api.getAccount = .error (.apiError m) →
      get_account_status_data api = .ok (errObj m)) ∧
    (api.listPositions = .error (.apiError m) →
      list_positions_data api = .ok (errObj m)) ∧
    (∀ status limit, api.listOrders status limit = .error (.apiError m) →
      list_orders api status limit =
        (["\n---\n📄 Fetching Orders (Status: " ++ status ++ ")...\n---",
          "🔴 API Error listing orders: " ++ m], .ok Value.none)) ∧
    (∀ symbol qty side type tif,
      api.submitOrder symbol qty side type tif = .error (.apiError m) →
      place_order api symbol qty side type tif =
        (["\n---\n🛒 Placing Order for " ++ toString qty ++ " " ++ symbol ++
            "...\n---",
          "🔴 API Error placing order: " ++ m], .ok Value.none)) := by
  refine ⟨?_, ?_, ?_, ?_⟩
  · intro h
    unfold get_account_status_data
    rw [h]
  · intro h
    unfold list_positions_data
    rw [h]
  · intro status limit h
    unfold list_orders list_orders_given
    rw [h]
  · intro symbol qty side type tif h
    unfold place_order
    rw [h]

theorem C1_api_errors_caught_witness :
    get_account_status_data (apiFailingWith "insufficient buying power") =
      .ok (errObj "insufficient buying power") ∧
    list_positions_data (apiFailingWith "insufficient buying power") =
      .ok (errObj "insufficient buying power") ∧
    list_orders (apiFailingWith "insufficient buying power") "open" 50 =
      (["\n---\n📄 Fetching Orders (Status: open)...\n---",
        "🔴 API Error listing orders: insufficient buying power"],
       .ok Value.none) ∧
    place_order (apiFailingWith "insufficient buying power")
        "AAPL" 10 "buy" "market" "gtc" =
      (["\n---\n🛒 Placing Order for 10 AAPL...\n---",
        "🔴 API Error placing order: insufficient buying power"],
       .ok Value.none) :=
  ⟨(C1_api_errors_caught _ _).1 rfl,
   (C1_api_errors_caught _ _).2.1 rfl,
   (C1_api_errors_caught _ _).2.2.1 "open" 50 rfl,
   (C1_api_errors_caught _ _).2.2.2 "AAPL" 10 "buy" "market" "gtc" rfl⟩

/-- C4: non-APIError exceptions are not caught anywhere in the facade. -/
theorem C4_non_api_errors_propagate (api : ApiClient) (e : PyExc)
    (hne : e.isApiError = false) :
    (api.getAccount = .error e → get_account_status_data api = .error e) ∧
    (api.listPositions = .error e → list_positions_data api = .error e) ∧
    (∀ status limit, api.listOrders status limit = .error e →
      list_orders api status limit =
        (["\n---\n📄 Fetching Orders (Status: " ++ status ++ ")...\n---"],
         .error e)) ∧
    (∀ symbol qty side type tif,
      api.submitOrder symbol qty side type tif = .error e →
      place_order api symbol qty side type tif =
        (["\n---\n🛒 Placing Order for " ++ toString qty ++ " " ++ symbol ++
            "...\n---"], .error e)) ∧
    (∀ a, api.getAccount = .ok a → pyFloatOpt a.portfolio_value = Option.none →
      get_account_status_data api = .error (.valueError
        ("could not convert string to float: \x27" ++ a.portfolio_value ++
          "\x27"))) := by
  refine ⟨?_, ?_, ?_, ?_, ?_⟩
  · intro h
    unfold get_account_status_data
    rw [h]
    cases e with
    | apiError m => simp [PyExc.isApiError] at hne
    | valueError m => rfl
    | keyError k => rfl
    | typeError m => rfl
  · intro h
    unfold list_positions_data
    rw [h]
    cases e with
    | apiError m => simp [PyExc.isApiError] at hne
    | valueError m => rfl
    | keyError k => rfl
    | typeError m => rfl
  · intro status limit h
    unfold list_orders list_orders_given
    rw [h]
    cases e with
    | apiError m => simp [PyExc.isApiError] at hne
    | valueError m => rfl
    | keyError k => rfl
    | typeError m => rfl
  · intro symbol qty side type tif h
    unfold place_order
    rw [h]
    cases e with
    | apiError m => simp [PyExc.isApiError] at hne
    | valueError m => rfl
    | keyError k => rfl
    | typeError m => rfl
  · intro a ha hbad
    unfold get_account_status_data
    simp only [ha, pyFloat_of_unparsable _ hbad]

theorem C4_non_api_errors_propagate_witness :
    get_account_status_data apiRaisingValueError =
      .error (.valueError "transport exploded") ∧
    list_positions_data apiRaisingValueError =
      .error (.valueError "transport exploded") ∧
    list_orders apiRaisingValueError "open" 50 =
      (["\n---\n📄 Fetching Orders (Status: open)...\n---"],
       .error (.valueError "transport exploded")) ∧
    place_order apiRaisingValueError "AAPL" 10 "buy" "market" "gtc" =
      (["\n---\n🛒 Placing Order for 10 AAPL...\n---"],
       .error (.valueError "transport exploded")) ∧
    get_account_status_data badParseApi =
      .error (.valueError "could not convert string to float: \x27abc\x27") :=
  ⟨(C4_non_api_errors_propagate apiRaisingValueError (.valueError "transport exploded") rfl).1 rfl,
   (C4_non_api_errors_propagate apiRaisingValueError (.valueError "transport exploded") rfl).2.1 rfl,
   (C4_non_api_errors_propagate apiRaisingValueError (.valueError "transport exploded") rfl).2.2.1 "open" 50 rfl,
   (C4_non_api_errors_propagate apiRaisingValueError (.valueError "transport exploded") rfl).2.2.2.1
     "AAPL" 10 "buy" "market" "gtc" rfl,
   (C4_non_api_errors_propagate badParseApi (.valueError "x") rfl).2.2.2.2
     badParseAccount rfl (by decide)⟩

/-- C7 counterexample: limit 0 and a negative limit reach the provider. -/
theorem C7_nonpositive_limit_forwarded_cex :
    list_orders limitProbeApi "open" 0 =
      (["\n---\n📄 Fetching Orders (Status: open)...\n---",
        "🔴 API Error listing orders: provider saw limit 0"], .ok Value.none) ∧
    list_orders limitProbeApi "open" (-7) =
      (["\n---\n📄 Fetching Orders (Status: open)...\n---",
        "🔴 API Error listing orders: provider saw limit -7"], .ok Value.none) :=
  ⟨rfl, rfl⟩

/-- C7 amended: no validation of the limit happens; the provider call is
issued with exactly the limit received. -/
theorem C7_limit_forwarded_unvalidated (api : ApiClient) (status : String)
    (limit : Int) (_hnp : limit ≤ 0) :
    list_orders api status limit =
      list_orders_given status (api.listOrders status limit) ∧
    list_orders limitProbeApi status limit =
      (["\n---\n📄 Fetching Orders (Status: " ++ status ++ ")...\n---",
        "🔴 API Error listing orders: provider saw limit " ++ toString limit],
       .ok Value.none) :=
  ⟨rfl, rfl⟩

theorem C7_limit_forwarded_unvalidated_witness :
    list_orders goodApi "open" 0 =
      list_orders_given "open" (goodApi.listOrders "open" 0) ∧
    list_orders limitProbeApi "open" 0 =
      (["\n---\n📄 Fetching Orders (Status: open)...\n---",
        "🔴 API Error listing orders: provider saw limit 0"], .ok Value.none) :=
  ⟨(C7_limit_forwarded_unvalidated goodApi "open" 0 (by decide)).1,
   (C7_limit_forwarded_unvalidated goodApi "open" 0 (by decide)).2⟩

/-- A position with any unparsable numeric field fails to normalize. -/
theorem normalize_position_error_of_unparsable (pos : ProviderPosition)
    (hbad : pyFloatOpt pos.qty = Option.none ∨
      pyFloatOpt pos.market_value = Option.none ∨
      pyFloatOpt pos.avg_entry_price = Option.none ∨
      pyFloatOpt pos.current_price = Option.none ∨
      pyFloatOpt pos.unrealized_pl = Option.none ∨
      pyFloatOpt pos.unrealized_plpc = Option.none) :
    ∃ e, normalize_position pos = .error e := by
  unfold normalize_position
  cases h1 : pyFloat pos.qty with
  | error e => exact ⟨e, rfl⟩
  | ok q1 =>
    cases h2 : pyFloat pos.market_value with
    | error e => exact ⟨e, rfl⟩
    | ok q2 =>
      cases h3 : pyFloat pos.avg_entry_price with
      | error e => exact ⟨e, rfl⟩
      | ok q3 =>
        cases h4 : pyFloat pos.current_price with
        | error e => exact ⟨e, rfl⟩
        | ok q4 =>
          cases h5 : pyFloat pos.unrealized_pl with
          | error e => exact ⟨e, rfl⟩
          | ok q5 =>
            cases h6 : pyFloat pos.unrealized_plpc with
            | error e => exact ⟨e, rfl⟩
            | ok q6 =>
              exfalso
              have s1 := pyFloat_ok_some _ _ h1
              have s2 := pyFloat_ok_some _ _ h2
              have s3 := pyFloat_ok_some _ _ h3
              have s4 := pyFloat_ok_some _ _ h4
              have s5 := pyFloat_ok_some _ _ h5
              have s6 := pyFloat_ok_some _ _ h6
              rcases hbad with hb | hb | hb | hb | hb | hb <;> simp_all

/-- C3 counterexample: an unparsable field makes both data operations raise
a ValueError rather than return the error dict. -/
theorem C3_parse_failure_raises_cex :
    get_account_status_data badParseApi =
      .error (.valueError "could not convert string to float: \x27abc\x27") ∧
    list_positions_data badPositionsApi =
      .error (.valueError "could not convert string to float: \x27oops\x27") :=
  ⟨rfl, rfl⟩

/-- C3 amended: unparsable numeric fields make normalization raise a
propagating ValueError; no ErrorValue is returned and no zero substituted. -/
theorem C3_parse_failure_raises (api : ApiClient) :
    (∀ a, api.getAccount = .ok a →
      (pyFloatOpt a.portfolio_value = Option.none ∨
       pyFloatOpt a.buying_power = Option.none ∨
       pyFloatOpt a.cash = Option.none ∨
       pyFloatOpt a.equity = Option.none) →
      ∃ m, get_account_status_data api = .error (PyExc.valueError m)) ∧
    (∀ ps pos, api.listPositions = .ok ps → pos ∈ ps →
      (pyFloatOpt pos.qty = Option.none ∨
       pyFloatOpt pos.market_value = Option.none ∨
       pyFloatOpt pos.avg_entry_price = Option.none ∨
       pyFloatOpt pos.current_price = Option.none ∨
       pyFloatOpt pos.unrealized_pl = Option.none ∨
       pyFloatOpt pos.unrealized_plpc = Option.none) →
      ∃ m, list_positions_data api = .error (PyExc.valueError m)) := by
  constructor
  · intro a ha hbad
    unfold get_account_status_data
    simp only [ha]
    cases hpv : pyFloat a.portfolio_value with
    | error e =>
      obtain ⟨m, rfl⟩ := pyFloat_error_kind _ _ hpv
      exact ⟨m, rfl⟩
    | ok pv =>
      cases hbp : pyFloat a.buying_power with
      | error e =>
        obtain ⟨m, rfl⟩ := pyFloat_error_kind _ _ hbp
        exact ⟨m, rfl⟩
      | ok bp =>
        cases hch : pyFloat a.cash with
        | error e =>
          obtain ⟨m, rfl⟩ := pyFloat_error_kind _ _ hch
          exact ⟨m, rfl⟩
        | ok ch =>
          cases heqy : pyFloat a.equity with
          | error e =>
            obtain ⟨m, rfl⟩ := pyFloat_error_kind _ _ heqy
            exact ⟨m, rfl⟩
          | ok eqy =>
            exfalso
            have s1 := pyFloat_ok_some _ _ hpv
            have s2 := pyFloat_ok_some _ _ hbp
            have s3 := pyFloat_ok_some _ _ hch
            have s4 := pyFloat_ok_some _ _ heqy
            rcases hbad with hb | hb | hb | hb <;> simp_all
  · intro ps pos hps hmem hbad
    obtain ⟨e, herr⟩ := normalize_position_error_of_unparsable pos hbad
    obtain ⟨m, hall⟩ := normalizePositions_error_of_bad ps pos e hmem herr
    refine ⟨m, ?_⟩
    unfold list_positions_data
    simp only [hps, hall]

theorem C3_parse_failure_raises_witness :
    (∃ m, get_account_status_data badParseApi =
      .error (PyExc.valueError m)) ∧
    (∃ m, list_positions_data badPositionsApi =
      .error (PyExc.valueError m)) :=
  ⟨(C3_parse_failure_raises badParseApi).1 badParseAccount rfl
     (Or.inl (by decide)),
   (C3_parse_failure_raises badPositionsApi).2
     [goodPosition, { goodPosition with qty := "oops" }]
     { goodPosition with qty := "oops" } rfl
     (List.mem_cons_of_mem _ (List.mem_cons_self _ _))
     (Or.inl (by decide))⟩

/-- C8: the normalized plpc equals the parsed provider fraction; the display
transform multiplies it by 100. -/
theorem C8_unrealized_plpc_unscaled (api : ApiClient) :
    (∀ pos v, normalize_position pos = .ok v →
      ∃ q, pyFloat pos.unrealized_plpc = .ok q ∧
        Value.getItem v "unrealized_plpc" = .ok (.num q) ∧
        pl_pct_value v = .ok (q * mkRat 100 1)) ∧
    (∀ ps objs, api.listPositions = .ok ps →
      list_positions_data api = .ok (.arr objs) →
      ∀ v ∈ objs, ∃ pos ∈ ps, normalize_position pos = .ok v) := by
  constructor
  · intro pos v hv
    obtain ⟨q1, q2, q3, q4, q5, q6, h1, h2, h3, h4, h5, h6, rfl⟩ :=
      normalize_position_ok pos v hv
    exact ⟨q6, h6, rfl, rfl⟩
  · intro ps objs hps hdata
    rcases list_positions_data_ok _ _ hdata with
      ⟨m, _, harr⟩ | ⟨ps2, objs2, hps2, hnorm, harr⟩
    · cases harr
    · obtain rfl : objs = objs2 := Value.arr.inj harr
      obtain rfl : ps = ps2 := Except.ok.inj (hps.symm.trans hps2)
      exact normalizePositions_mem _ _ hnorm

theorem C8_unrealized_plpc_unscaled_witness :
    (∃ q, pyFloat goodPosition.unrealized_plpc = .ok q ∧
      Value.getItem goodPositionValue "unrealized_plpc" = .ok (.num q) ∧
      pl_pct_value goodPositionValue = .ok (q * mkRat 100 1)) ∧
    Value.getItem goodPositionValue "unrealized_plpc" =
      .ok (.num (mkRat 133 2500)) ∧
    pl_pct_value goodPositionValue = .ok (mkRat 133 25) ∧
    mkRat 133 2500 ≠ mkRat 133 25 := by
  refine ⟨(C8_unrealized_plpc_unscaled goodApi).1 goodPosition
    goodPositionValue rfl, rfl, ?_, by decide⟩
  show Except.ok (mkRat 133 2500 * mkRat 100 1) = _
  norm_num

/-- C2 counterexample: the api.py front-end answers 200 with the ErrorValue
body. -/
theorem C2_api_py_200_for_error_cex :
    apiPy_get_account_info (apiFailingWith "boom") = (errObj "boom", 200) ∧
    apiPy_get_positions (apiFailingWith "boom") = (errObj "boom", 200) :=
  ⟨rfl, rfl⟩

/-- C2 amended: Alpaca.py maps ErrorValue to 500 and values to 200; api.py
maps every returned value, ErrorValue included, to 200 and only raised
exceptions to 500. -/
theorem C2_http_status_mapping (api : ApiClient) :
    (∀ v, get_account_status_data api = .ok v →
      ((∃ m, v = errObj m) → alpaca_get_account_info api = .ok (v, 500)) ∧
      ((¬ ∃ m, v = errObj m) → alpaca_get_account_info api = .ok (v, 200)) ∧
      apiPy_get_account_info api = (v, 200)) ∧
    (∀ v, list_positions_data api = .ok v →
      ((∃ m, v = errObj m) → alpaca_get_positions api = .ok (v, 500)) ∧
      ((¬ ∃ m, v = errObj m) → alpaca_get_positions api = .ok (v, 200)) ∧
      apiPy_get_positions api = (v, 200)) ∧
    (∀ e, get_account_status_data api = .error e →
      apiPy_get_account_info api = (.obj [("error", .str e.pyMessage)], 500)) ∧
    (∀ e, list_positions_data api = .error e →
      apiPy_get_positions api = (.obj [("error", .str e.pyMessage)], 500)) := by
  refine ⟨?_, ?_, ?_, ?_⟩
  · intro v hv
    refine ⟨?_, ?_, ?_⟩
    · rintro ⟨m, rfl⟩
      unfold alpaca_get_account_info
      rw [hv]
      rfl
    · intro hne
      rcases get_account_status_data_ok _ _ hv with
        ⟨m, _, rfl⟩ | ⟨a, pv, bp, ch, eqv, _, _, _, _, _, rfl⟩
      · exact absurd ⟨m, rfl⟩ hne
      · unfold alpaca_get_account_info
        rw [hv]
        rfl
    · unfold apiPy_get_account_info
      rw [hv]
  · intro v hv
    refine ⟨?_, ?_, ?_⟩
    · rintro ⟨m, rfl⟩
      unfold alpaca_get_positions
      rw [hv]
      rfl
    · intro hne
      rcases list_positions_data_ok _ _ hv with
        ⟨m, _, rfl⟩ | ⟨ps, objs, hps, hnorm, rfl⟩
      · exact absurd ⟨m, rfl⟩ hne
      · have hobjs : ∀ w ∈ objs, ∃ fs, w = Value.obj fs := by
          intro w hw
          obtain ⟨pos, _, hok⟩ := normalizePositions_mem _ _ hnorm w hw
          obtain ⟨q1, q2, q3, q4, q5, q6, _, _, _, _, _, _, rfl⟩ :=
            normalize_position_ok _ _ hok
          exact ⟨_, rfl⟩
        unfold alpaca_get_positions
        rw [hv]
        show (if pyIn "error" (Value.arr objs) = true
            then (Except.ok (Value.arr objs, 500) : Except PyExc HttpResponse)
            else Except.ok (Value.arr objs, 200)) =
          Except.ok (Value.arr objs, 200)
        rw [pyIn_arr_objs _ _ hobjs]
        rfl
    · unfold apiPy_get_positions
      rw [hv]
  · intro e he
    unfold apiPy_get_account_info
    rw [he]
  · intro e he
    unfold apiPy_get_positions
    rw [he]

theorem C2_http_status_mapping_witness :
    alpaca_get_account_info (apiFailingWith "boom") = .ok (errObj "boom", 500) ∧
    alpaca_get_positions (apiFailingWith "boom") = .ok (errObj "boom", 500) ∧
    alpaca_get_account_info goodApi = .ok (goodAccountValue, 200) ∧
    alpaca_get_positions goodApi = .ok (.arr [goodPositionValue], 200) ∧
    apiPy_get_account_info (apiFailingWith "boom") = (errObj "boom", 200) ∧
    apiPy_get_account_info badParseApi =
      (.obj [("error",
        .str "could not convert string to float: \x27abc\x27")], 500) := by
  refine ⟨((C2_http_status_mapping (apiFailingWith "boom")).1 _ rfl).1
      ⟨"boom", rfl⟩,
    ((C2_http_status_mapping (apiFailingWith "boom")).2.1 _ rfl).1
      ⟨"boom", rfl⟩,
    ((C2_http_status_mapping goodApi).1 _ rfl).2.1 ?_,
    ((C2_http_status_mapping goodApi).2.1 _ rfl).2.1 ?_,
    ((C2_http_status_mapping (apiFailingWith "boom")).1 _ rfl).2.2,
    (C2_http_status_mapping badParseApi).2.2.1 _ rfl⟩
  · rintro ⟨m, hm⟩
    simp [goodAccountValue, accountObj, errObj] at hm
  · rintro ⟨m, hm⟩
    cases hm

/-- C9 counterexample: the renderer raises on the format specifier before
the missing key is reached. -/
theorem C9_renderer_raises_format_error_cex :
    get_account_status goodApi =
      (["\n---\n📋 Fetching Account Status...\n---",
        "Account Status:       ACTIVE (acct-123)",
        "Currency:             USD"],
       .error (.valueError
         "Invalid format specifier \x27, .2f\x27 for object of type \x27float\x27")) ∧
    PyExc.valueError
        "Invalid format specifier \x27, .2f\x27 for object of type \x27float\x27" ≠
      PyExc.keyError "daytrade_count" :=
  ⟨rfl, by decide⟩

/-- C9 amended: the data never carries daytrade_count, but the success
branch raises a format-specifier ValueError at line 77, before line 79. -/
theorem C9_account_renderer_behavior (api : ApiClient) :
    (∀ v, get_account_status_data api = .ok v →
      pyIn "daytrade_count" v = false) ∧
    (∀ a v, api.getAccount = .ok a → get_account_status_data api = .ok v →
      (get_account_status api).2 = .error (.valueError
        "Invalid format specifier \x27, .2f\x27 for object of type \x27float\x27")) ∧
    (∀ m, api.getAccount = .error (.apiError m) →
      get_account_status api =
        (["🔴 API Error fetching account: " ++ m], .ok Value.none)) := by
  refine ⟨?_, ?_, ?_⟩
  · intro v hv
    rcases get_account_status_data_ok _ _ hv with
      ⟨m, _, rfl⟩ | ⟨a, pv, bp, ch, eqv, _, _, _, _, _, rfl⟩
    · rfl
    · rfl
  · intro a v ha hv
    rcases get_account_status_data_ok _ _ hv with
      ⟨m, hacc, rfl⟩ | ⟨a2, pv, bp, ch, eqv, ha2, _, _, _, _, rfl⟩
    · rw [ha] at hacc; cases hacc
    · unfold get_account_status
      rw [hv]
      rfl
  · intro m hm
    have hd : get_account_status_data api = .ok (errObj m) := by
      unfold get_account_status_data
      rw [hm]
    unfold get_account_status
    rw [hd]
    rfl

theorem C9_account_renderer_behavior_witness :
    pyIn "daytrade_count" goodAccountValue = false ∧
    (get_account_status goodApi).2 = .error (.valueError
      "Invalid format specifier \x27, .2f\x27 for object of type \x27float\x27") ∧
    get_account_status (apiFailingWith "boom") =
      (["🔴 API Error fetching account: boom"], .ok Value.none) :=
  ⟨(C9_account_renderer_behavior goodApi).1 goodAccountValue rfl,
   (C9_account_renderer_behavior goodApi).2.1 goodAccount goodAccountValue
     rfl rfl,
   (C9_account_renderer_behavior (apiFailingWith "boom")).2.2 "boom" rfl⟩
